import Mathlib

/-!
Verification development for the media-generation orchestration layer:
two command-line pipelines, `generate_image` (src/scripts/generate_image.py)
and `generate_video` (src/scripts/generate_video.py), that request generated
media from a remote service and persist the result.

The embedding is shallow and pure.  External collaborators (the remote
service, the filesystem, MIME sniffing, path resolution) are passed in as
explicit oracles:

  * `fs : String → Option (List Nat)`  — file bytes if the path exists
    (`Path.exists` / `open(...).read()`);
  * `mimeGuess : String → Option String` — `mimetypes.guess_type`'s first
    component;
  * `service`, `submitResult`, `pollScript`, `downloadResult` — scripted
    responses of the remote service (`Except` for calls that may raise);
  * `resolve : String → String` — `Path.resolve` (absolute path).

Side effects (stdout/stderr prints, network calls, sleeps, mkdir, file
writes) are reified as an ordered `Event` trace returned next to the
result, so ordering properties ("before any network call", "mkdir before
write", "delay before each poll") are statements about the trace.
`sys.exit(1)` sites are modelled as `Except.error` values whose
constructors follow the spec's error taxonomy; the distinct diagnostic
messages of each exit site are kept in the trace as `printErr` events.
-/

namespace MediaGen

/-- Python truthiness on an optional string: `None` and `""` are falsy.
`truthyStr s` is `some v` exactly when `s` holds a truthy value `v`. -/
def truthyStr : Option String → Option String
  | none => none
  | some s => if s = "" then none else some s

/-- `bool(s)` for an optional string. -/
def pyTruthy (s : Option String) : Bool := (truthyStr s).isSome

/-- `api_key or os.environ.get("GEMINI_API_KEY")` (both pipelines, image
lines 75, video lines 50): the explicit argument when truthy, else the
environment value (which may itself be `None`). -/
def resolveApiKey (apiKey envKey : Option String) : Option String :=
  match truthyStr apiKey with
  | some k => some k
  | none => envKey

/-- `get_mime_type` from generate_image.py lines 26-32: the guessed MIME
type, defaulting to `image/png` when `mimetypes.guess_type` returns
`None`. -/
def get_mime_type (mimeGuess : String → Option String) (file_path : String) : String :=
  match mimeGuess file_path with
  | none => "image/png"
  | some m => m

/-- The inline MIME derivation of generate_video.py lines 78-79:
`mime_type = mime_type or "image/jpeg"` — Python `or`, so both `None`
and the empty string fall back to `image/jpeg`. -/
def video_mime_type (mimeGuess : String → Option String) (file_path : String) : String :=
  match mimeGuess file_path with
  | none => "image/jpeg"
  | some m => if m = "" then "image/jpeg" else m

/-- One element of the `contents` list handed to
`client.models.generate_content`: either a media part
(`types.Part.from_bytes`) or a bare text prompt. -/
inductive Content where
  | media (data : List Nat) (mimeType : String)
  | text (s : String)
  deriving DecidableEq, Repr

/-- One part of `response.candidates[0].content.parts`: optional inline
binary data and optional text. -/
structure Part where
  inline_data : Option (List Nat)
  text : Option String
  deriving DecidableEq, Repr

/-- Reified side effects, in program order. `statusCheck` is an
evaluation of `operation.done`; `operationsGet` is the network call
`client.operations.get`; `download` is `client.files.download` together
with `video.save`. -/
inductive Event where
  | printOut (s : String)
  | printErr (s : String)
  | generateContent (contents : List Content)
  | generateVideos (model : String) (prompt : String)
      (image : Option (List Nat × String)) (negative : Option String)
  | statusCheck
  | operationsGet
  | sleep (seconds : Nat)
  | download
  | mkdirParents (path : String)
  | writeFile (path : String) (data : List Nat)
  deriving DecidableEq, Repr

/-- `True` of the events that reach the network. -/
def isNetwork : Event → Bool
  | .generateContent _ => true
  | .generateVideos _ _ _ _ => true
  | .operationsGet => true
  | .download => true
  | _ => false

/-- `True` of `statusCheck` only; used to count poll observations. -/
def isStatusCheck : Event → Bool
  | .statusCheck => true
  | _ => false

/-- The durations of the `sleep` events of a trace, in order. -/
def sleeps (es : List Event) : List Nat :=
  es.filterMap fun e =>
    match e with
    | .sleep n => some n
    | _ => none

/-- The number of poll observations (`statusCheck` events) in a trace. -/
def statusChecks (es : List Event) : Nat := es.countP isStatusCheck

/-- Exit sites of the image pipeline, named after the spec taxonomy. -/
inductive ImgErr where
  | missingCredential
  | invalidOption
  | inputNotFound
  | serviceError (msg : String)
  | noMediaProduced
  deriving DecidableEq, Repr

/-- Exit sites of the video pipeline, named after the spec taxonomy.
`scriptExhausted` is an artifact of driving the unbounded polling loop
with a finite script: it marks the loop still pending when the script
runs out, not an exit of the program. -/
inductive VidErr where
  | missingCredential
  | inputNotFound
  | serviceError (msg : String)
  | generationFailed (msg : String)
  | persistenceError (msg : String)
  | scriptExhausted
  deriving DecidableEq, Repr

/-- `valid_resolutions = {"1K", "2K", "4K"}` (generate_image.py line 82);
the spec names the three members low / medium / high. -/
def validResolutions : List String := ["1K", "2K", "4K"]

/-- Lines 91-104 of generate_image.py: `contents = []`, the reference
media appended first when present, then the text prompt appended. -/
def buildContents (prompt : String) (refMedia : Option (List Nat × String)) : List Content :=
  (match refMedia with
   | none => []
   | some (b, m) => [Content.media b m]) ++ [Content.text prompt]

/-- Lines 94-101 of generate_image.py together with
`load_image_as_base64` (lines 35-47): when the input path is truthy the
file must exist (`FileNotFoundError` otherwise, spec `InputNotFound`);
its bytes are base64-encoded then immediately decoded by
`Part.from_bytes(data=standard_b64decode(base64_data))`, a round trip,
so the part carries the original bytes, tagged via `get_mime_type`. -/
def load_ref (fs : String → Option (List Nat)) (mimeGuess : String → Option String)
    (input_image_path : Option String) : Except ImgErr (Option (List Nat × String)) :=
  match truthyStr input_image_path with
  | none => .ok none
  | some p =>
    match fs p with
    | none => .error .inputNotFound
    | some data => .ok (some (data, get_mime_type mimeGuess p))

/-- The first part of the response carrying inline binary data, if any:
the `for part in ...: if part.inline_data is not None` scan of
generate_image.py lines 130-137. -/
def firstMedia : List Part → Option (List Nat)
  | [] => none
  | p :: rest =>
    match p.inline_data with
    | some d => some d
    | none => firstMedia rest

/-- Lines 142-144 of generate_image.py: one stderr line per part whose
`text` attribute is truthy. -/
def surfaceTexts : List Part → List Event
  | [] => []
  | p :: rest =>
    (match p.text with
     | none => []
     | some t => if t = "" then [] else [Event.printErr ("Model response: " ++ t)]) ++
    surfaceTexts rest

/-- Lines 128-145 of generate_image.py: write the first inline-data part
verbatim to the output path (creating parent directories), report the
resolved path; otherwise print the no-image diagnostic, surface any text
parts, and exit 1 (`NoMediaProduced`).  The guard
`if response.candidates and response.candidates[0].content.parts`
becomes `parts ≠ []` (the response is modelled by its parts list). -/
def extract_image (parts : List Part) (output_path : String)
    (resolve : String → String) : List Event × Except ImgErr String :=
  match firstMedia parts with
  | some data =>
    ([.mkdirParents output_path, .writeFile output_path data,
      .printOut ("Image saved: " ++ resolve output_path)],
     .ok (resolve output_path))
  | none =>
    (Event.printErr "Error: No image was generated in the response." ::
      (if parts = [] then [] else surfaceTexts parts),
     .error .noMediaProduced)

/-- `generate_image` (generate_image.py lines 50-145). Control flow in
source order: credential resolution (75-79), resolution validation
(81-85), reference-image loading (94-101), the synchronous
`generate_content` call (117-125, any exception printed and fatal,
spec `ServiceError`), then extraction (128-145). -/
def generate_image (prompt output_path resolution : String)
    (input_image_path api_key env_key : Option String)
    (fs : String → Option (List Nat)) (mimeGuess : String → Option String)
    (service : Except String (List Part))
    (resolve : String → String) : List Event × Except ImgErr String :=
  if pyTruthy (resolveApiKey api_key env_key) = false then
    ([.printErr "Error: No API key provided.",
      .printErr "Set GEMINI_API_KEY environment variable or use --api-key argument."],
     .error .missingCredential)
  else if resolution ∈ validResolutions then
    match load_ref fs mimeGuess input_image_path with
    | .error e => ([], .error e)
    | .ok ref =>
      let contents := buildContents prompt ref
      match service with
      | .error e =>
        ([.generateContent contents, .printErr ("Error calling Gemini API: " ++ e)],
         .error (.serviceError e))
      | .ok parts =>
        (Event.generateContent contents :: (extract_image parts output_path resolve).1,
         (extract_image parts output_path resolve).2)
  else
    ([.printErr ("Error: Invalid resolution " ++ resolution ++ ". Must be one of: 1K, 2K, 4K")],
     .error .invalidOption)

/-- Status of the asynchronous video operation as observed through
`operation.done` / `operation.error`: `doneError` is done with a truthy
job-level error. -/
inductive PollStatus where
  | pending
  | doneSuccess
  | doneError (msg : String)
  deriving DecidableEq, Repr

/-- Outcome of the polling loop of generate_video.py lines 109-124. -/
inductive WaitOutcome where
  | proceed
  | failed (msg : String)
  | aborted (msg : String)
  | outOfScript
  deriving DecidableEq, Repr

/-- The progress line of generate_video.py line 113:
`  Waiting... (poll_count*20 s elapsed)`. -/
def waitMsg (pollCount : Nat) : String :=
  "  Waiting... (" ++ toString (pollCount * 20) ++ "s elapsed)"

/-- The polling loop, generate_video.py lines 110-124, driven by the
scripted answers of `client.operations.get`.  While `operation.done` is
false: bump `poll_count`, print progress, `time.sleep(20)`, re-query
(`operationsGet`); a raised query exception is printed and fatal
(`aborted`, spec `ServiceError`).  Once done: a truthy `operation.error`
is `failed` (spec `GenerationFailed`), else `proceed` to extraction. -/
def waitLoop : Nat → PollStatus → List (Except String PollStatus) → List Event × WaitOutcome
  | _, .doneSuccess, _ => ([.statusCheck], .proceed)
  | _, .doneError e, _ => ([.statusCheck], .failed e)
  | c, .pending, [] =>
    ([.statusCheck, .printOut (waitMsg (c + 1)), .sleep 20], .outOfScript)
  | c, .pending, .error e :: _ =>
    ([.statusCheck, .printOut (waitMsg (c + 1)), .sleep 20, .operationsGet,
      .printErr ("Error checking operation status: " ++ e)],
     .aborted e)
  | c, .pending, .ok s :: rest =>
    (Event.statusCheck :: .printOut (waitMsg (c + 1)) :: .sleep 20 :: .operationsGet ::
       (waitLoop (c + 1) s rest).1,
     (waitLoop (c + 1) s rest).2)

/-- generate_video.py lines 84-139, from submission on: the startup
prints (85-88), `client.models.generate_videos` (90-106, a raised
exception is printed and fatal, spec `ServiceError`), the polling loop
(109-124), then `mkdir` of the output parent (127-128) and the
download-and-save of the video (130-139, any exception printed and
fatal, spec `PersistenceError`). -/
def generate_video_submit (prompt output_path model : String)
    (negative : Option String) (image : Option (List Nat × String))
    (submitResult : Except String PollStatus)
    (pollScript : List (Except String PollStatus))
    (downloadResult : Except String (List Nat))
    (resolve : String → String) : List Event × Except VidErr String :=
  let startEvs : List Event :=
    [.printOut ("Starting video generation with model: " ++ model),
     .printOut ("Prompt: " ++ prompt)] ++
    (match negative with
     | none => []
     | some n => [Event.printOut ("Negative prompt: " ++ n)])
  match submitResult with
  | .error e =>
    (startEvs ++ [.generateVideos model prompt image negative,
      .printErr ("Error starting video generation: " ++ e)],
     .error (.serviceError e))
  | .ok st =>
    let evs := startEvs ++ [.generateVideos model prompt image negative,
      .printOut "Generating video (this may take a few minutes)..."] ++
      (waitLoop 0 st pollScript).1
    match (waitLoop 0 st pollScript).2 with
    | .failed e => (evs ++ [.printErr ("Error generating video: " ++ e)], .error (.generationFailed e))
    | .aborted e => (evs, .error (.serviceError e))
    | .outOfScript => (evs, .error .scriptExhausted)
    | .proceed =>
      match downloadResult with
      | .error e =>
        (evs ++ [.mkdirParents output_path, .download,
          .printErr ("Error saving video: " ++ e)],
         .error (.persistenceError e))
      | .ok data =>
        (evs ++ [.mkdirParents output_path, .download, .writeFile output_path data,
          .printOut ("Video saved: " ++ resolve output_path)],
         .ok (resolve output_path))

/-- `generate_video` (generate_video.py lines 24-139). Credential
resolution (50-54), the negative-prompt config kept only when truthy
(60-64), reference-image loading when the path is truthy (67-82,
missing file printed and fatal, spec `InputNotFound`; MIME via
`video_mime_type`), then submission, polling and extraction
(`generate_video_submit`). -/
def generate_video (prompt output_path model : String)
    (negative_prompt input_image_path api_key env_key : Option String)
    (fs : String → Option (List Nat)) (mimeGuess : String → Option String)
    (submitResult : Except String PollStatus)
    (pollScript : List (Except String PollStatus))
    (downloadResult : Except String (List Nat))
    (resolve : String → String) : List Event × Except VidErr String :=
  if pyTruthy (resolveApiKey api_key env_key) = false then
    ([.printErr "Error: No API key provided.",
      .printErr "Set GEMINI_API_KEY environment variable or use --api-key argument."],
     .error .missingCredential)
  else
    let negative := truthyStr negative_prompt
    match truthyStr input_image_path with
    | none =>
      generate_video_submit prompt output_path model negative none
        submitResult pollScript downloadResult resolve
    | some p =>
      match fs p with
      | none => ([.printErr ("Error: Input image not found: " ++ p)], .error .inputNotFound)
      | some data =>
        let rest := generate_video_submit prompt output_path model negative
          (some (data, video_mime_type mimeGuess p))
          submitResult pollScript downloadResult resolve
        (Event.printOut ("Loading input image: " ++ p) :: rest.1, rest.2)

/-- `mkdir -p` of the output parent happens and a write to the output
path comes strictly after it in the trace. -/
def mkdirBeforeWrite (es : List Event) (path : String) : Prop :=
  ∃ pre post, es = pre ++ Event.mkdirParents path :: post ∧
    ∃ d, Event.writeFile path d ∈ post

/-- `True` of `operationsGet` only; counts network poll queries. -/
def isPollQuery : Event → Bool
  | .operationsGet => true
  | _ => false

/-- The number of `client.operations.get` calls in a trace. -/
def operationsGets (es : List Event) : Nat := es.countP isPollQuery

/-! ### Helper lemmas -/

theorem surfaceTexts_printErr {parts : List Part} {e : Event}
    (h : e ∈ surfaceTexts parts) : ∃ s, e = Event.printErr s := by
  induction parts with
  | nil => simp [surfaceTexts] at h
  | cons p rest ih =>
    simp only [surfaceTexts, List.mem_append] at h
    rcases h with h | h
    · rcases hp : p.text with _ | t
      · rw [hp] at h; simp at h
      · rw [hp] at h
        by_cases ht : t = ""
        · simp [ht] at h
        · simp [ht] at h; exact ⟨_, h⟩
    · exact ih h

theorem extract_image_no_generateContent (parts : List Part) (out : String)
    (resolve : String → String) (cs : List Content) :
    Event.generateContent cs ∉ (extract_image parts out resolve).1 := by
  intro h
  unfold extract_image at h
  rcases hm : firstMedia parts with _ | d <;> rw [hm] at h
  · simp only [List.mem_cons] at h
    rcases h with h | h
    · exact Event.noConfusion h
    · by_cases hp : parts = []
      · simp [hp] at h
      · simp only [if_neg hp] at h
        obtain ⟨s, hs⟩ := surfaceTexts_printErr h
        exact Event.noConfusion hs
  · simp at h

theorem firstMedia_eq_find (parts : List Part) :
    firstMedia parts = (parts.find? fun q => q.inline_data.isSome).bind Part.inline_data := by
  induction parts with
  | nil => simp [firstMedia]
  | cons p rest ih =>
    rcases hd : p.inline_data with _ | d
    · have hpred : (fun q => q.inline_data.isSome) p = false := by simp [hd]
      rw [List.find?_cons_of_neg _ (by simp [hd])]
      simpa [firstMedia, hd] using ih
    · rw [List.find?_cons_of_pos _ (by simp [hd])]
      simp [firstMedia, hd]

theorem surfaceTexts_mem {parts : List Part} {q : Part} {t : String}
    (hq : q ∈ parts) (ht : q.text = some t) (hne : t ≠ "") :
    Event.printErr ("Model response: " ++ t) ∈ surfaceTexts parts := by
  induction parts with
  | nil => simp at hq
  | cons p rest ih =>
    simp only [surfaceTexts, List.mem_append]
    rcases List.mem_cons.mp hq with rfl | hq2
    · left; simp [ht, hne]
    · right; exact ih hq2

theorem waitLoop_no_download :
    ∀ (script : List (Except String PollStatus)) (c : Nat) (st : PollStatus),
      Event.download ∉ (waitLoop c st script).1 := by
  intro script
  induction script with
  | nil => intro c st; cases st <;> simp [waitLoop]
  | cons hd tl ih =>
    intro c st
    cases st with
    | doneSuccess => simp [waitLoop]
    | doneError e => simp [waitLoop]
    | pending =>
      cases hd with
      | error e => simp [waitLoop]
      | ok s =>
        simp only [waitLoop, List.mem_cons, not_or]
        exact ⟨by simp, by simp, by simp, by simp, ih (c + 1) s⟩

theorem waitLoop_no_write :
    ∀ (script : List (Except String PollStatus)) (c : Nat) (st : PollStatus)
      (p : String) (d : List Nat),
      Event.writeFile p d ∉ (waitLoop c st script).1 := by
  intro script
  induction script with
  | nil => intro c st p d; cases st <;> simp [waitLoop]
  | cons hd tl ih =>
    intro c st p d
    cases st with
    | doneSuccess => simp [waitLoop]
    | doneError e => simp [waitLoop]
    | pending =>
      cases hd with
      | error e => simp [waitLoop]
      | ok s =>
        simp only [waitLoop, List.mem_cons, not_or]
        exact ⟨by simp, by simp, by simp, by simp, ih (c + 1) s p d⟩

theorem waitLoop_err_eq (n : Nat) (e : String) (rest : List (Except String PollStatus)) :
    ∀ c, waitLoop c .pending (List.replicate n (Except.ok PollStatus.pending) ++
        Except.error e :: rest) =
      waitLoop c .pending (List.replicate n (Except.ok PollStatus.pending) ++
        [Except.error e]) := by
  induction n with
  | zero => intro c; simp [waitLoop]
  | succ n ih =>
    intro c
    simp only [List.replicate_succ, List.cons_append, waitLoop, List.append_eq]
    rw [ih (c + 1)]

theorem waitLoop_err_outcome (n : Nat) (e : String) (rest : List (Except String PollStatus)) :
    ∀ c, (waitLoop c .pending (List.replicate n (Except.ok PollStatus.pending) ++
        Except.error e :: rest)).2 = .aborted e := by
  induction n with
  | zero => intro c; simp [waitLoop]
  | succ n ih =>
    intro c
    simp only [List.replicate_succ, List.cons_append, waitLoop]
    exact ih (c + 1)

theorem waitLoop_err_checks (n : Nat) (e : String) (rest : List (Except String PollStatus)) :
    ∀ c, statusChecks (waitLoop c .pending (List.replicate n (Except.ok PollStatus.pending) ++
        Except.error e :: rest)).1 = n + 1 := by
  induction n with
  | zero => intro c; simp [waitLoop, statusChecks, isStatusCheck]
  | succ n ih =>
    intro c
    simp only [List.replicate_succ, List.cons_append, waitLoop, statusChecks,
      List.countP_cons, isStatusCheck]
    have := ih (c + 1)
    simp only [statusChecks] at this
    simp [this]

theorem waitLoop_err_gets (n : Nat) (e : String) (rest : List (Except String PollStatus)) :
    ∀ c, operationsGets (waitLoop c .pending (List.replicate n (Except.ok PollStatus.pending) ++
        Except.error e :: rest)).1 = n + 1 := by
  induction n with
  | zero => intro c; simp [waitLoop, operationsGets, isPollQuery]
  | succ n ih =>
    intro c
    simp only [List.replicate_succ, List.cons_append, waitLoop, operationsGets,
      List.countP_cons, isPollQuery]
    have := ih (c + 1)
    simp only [operationsGets] at this
    simp [this]

theorem waitLoop_err_sleeps (n : Nat) (e : String) (rest : List (Except String PollStatus)) :
    ∀ c, sleeps (waitLoop c .pending (List.replicate n (Except.ok PollStatus.pending) ++
        Except.error e :: rest)).1 = List.replicate (n + 1) 20 := by
  induction n with
  | zero => intro c; simp [waitLoop, sleeps]
  | succ n ih =>
    intro c
    simp only [List.replicate_succ, List.cons_append, waitLoop, sleeps, List.filterMap_cons]
    have := ih (c + 1)
    simp only [sleeps] at this
    simp [this, List.replicate_succ]

theorem waitLoop_pend_outcome (n : Nat) :
    ∀ c, (waitLoop c .pending (List.replicate n (Except.ok PollStatus.pending))).2 =
      .outOfScript := by
  induction n with
  | zero => intro c; simp [waitLoop]
  | succ n ih =>
    intro c
    simp only [List.replicate_succ, waitLoop]
    exact ih (c + 1)

theorem waitLoop_pend_checks (n : Nat) :
    ∀ c, statusChecks (waitLoop c .pending
        (List.replicate n (Except.ok PollStatus.pending))).1 = n + 1 := by
  induction n with
  | zero => intro c; simp [waitLoop, statusChecks, isStatusCheck]
  | succ n ih =>
    intro c
    simp only [List.replicate_succ, waitLoop, statusChecks, List.countP_cons, isStatusCheck]
    have := ih (c + 1)
    simp only [statusChecks] at this
    simp [this]

theorem waitLoop_pend_sleeps (n : Nat) :
    ∀ c, sleeps (waitLoop c .pending
        (List.replicate n (Except.ok PollStatus.pending))).1 = List.replicate (n + 1) 20 := by
  induction n with
  | zero => intro c; simp [waitLoop, sleeps]
  | succ n ih =>
    intro c
    simp only [List.replicate_succ, waitLoop, sleeps, List.filterMap_cons]
    have := ih (c + 1)
    simp only [sleeps] at this
    simp [this, List.replicate_succ]

theorem mkdirBeforeWrite_of_append (pre mid : List Event) (out : String) (d : List Nat)
    (hmem : Event.writeFile out d ∈ mid) :
    mkdirBeforeWrite (pre ++ Event.mkdirParents out :: mid) out :=
  ⟨pre, mid, rfl, d, hmem⟩

theorem mkdirBeforeWrite_append_left (es : List Event) {tail : List Event} {out : String}
    (h : mkdirBeforeWrite tail out) : mkdirBeforeWrite (es ++ tail) out := by
  obtain ⟨pre, post, heq, d, hd⟩ := h
  exact ⟨es ++ pre, post, by rw [heq, List.append_assoc], d, hd⟩

theorem mkdirBeforeWrite_cons (e : Event) {es : List Event} {out : String}
    (h : mkdirBeforeWrite es out) : mkdirBeforeWrite (e :: es) out := by
  obtain ⟨pre, post, heq, d, hd⟩ := h
  exact ⟨e :: pre, post, by rw [heq]; rfl, d, hd⟩

theorem generate_video_submit_ok (prompt output_path model : String)
    (negative : Option String) (image : Option (List Nat × String))
    (submitResult : Except String PollStatus)
    (pollScript : List (Except String PollStatus))
    (downloadResult : Except String (List Nat)) (resolve : String → String) (p : String)
    (h : (generate_video_submit prompt output_path model negative image
      submitResult pollScript downloadResult resolve).2 = .ok p) :
    p = resolve output_path ∧
    mkdirBeforeWrite (generate_video_submit prompt output_path model negative image
      submitResult pollScript downloadResult resolve).1 output_path := by
  rcases submitResult with e | st
  · simp [generate_video_submit] at h
  · rcases hw : (waitLoop 0 st pollScript).2 with _ | e | e | _
    · rcases downloadResult with e | data
      · simp [generate_video_submit, hw] at h
      · simp only [generate_video_submit, hw] at h ⊢
        refine ⟨by simpa using h.symm, ?_⟩
        exact mkdirBeforeWrite_append_left _
          ⟨[], [.download, .writeFile output_path data,
            .printOut ("Video saved: " ++ resolve output_path)], rfl, data, by simp⟩
    · simp [generate_video_submit, hw] at h
    · simp [generate_video_submit, hw] at h
    · simp [generate_video_submit, hw] at h

/-! ### Claims -/

/-- Claim C5: with neither the explicit credential parameter nor the
environment variable present, both pipelines fail with
`MissingCredential` and their traces contain no network event; when the
explicit parameter is present (truthy) it is the resolved credential,
otherwise the environment variable is. -/
theorem credential_resolution
    (prompt output_path resolution model : String)
    (negative_prompt input_image_path : Option String)
    (fs : String → Option (List Nat)) (mimeGuess : String → Option String)
    (service : Except String (List Part))
    (submitResult : Except String PollStatus)
    (pollScript : List (Except String PollStatus))
    (downloadResult : Except String (List Nat))
    (resolve : String → String) :
    ((generate_image prompt output_path resolution input_image_path none none
        fs mimeGuess service resolve).2 = .error .missingCredential ∧
      ∀ e ∈ (generate_image prompt output_path resolution input_image_path none none
        fs mimeGuess service resolve).1, isNetwork e = false) ∧
    ((generate_video prompt output_path model negative_prompt input_image_path none none
        fs mimeGuess submitResult pollScript downloadResult resolve).2 =
          .error .missingCredential ∧
      ∀ e ∈ (generate_video prompt output_path model negative_prompt input_image_path none none
        fs mimeGuess submitResult pollScript downloadResult resolve).1, isNetwork e = false) ∧
    (∀ (k : String) (envKey : Option String), k ≠ "" →
      resolveApiKey (some k) envKey = some k) ∧
    (∀ envKey : Option String, resolveApiKey none envKey = envKey) := by
  refine ⟨⟨?_, ?_⟩, ⟨?_, ?_⟩, ?_, ?_⟩
  · simp [generate_image, resolveApiKey, truthyStr, pyTruthy]
  · intro e he
    simp [generate_image, resolveApiKey, truthyStr, pyTruthy] at he
    rcases he with rfl | rfl <;> rfl
  · simp [generate_video, resolveApiKey, truthyStr, pyTruthy]
  · intro e he
    simp [generate_video, resolveApiKey, truthyStr, pyTruthy] at he
    rcases he with rfl | rfl <;> rfl
  · intro k envKey hk
    simp [resolveApiKey, truthyStr, hk]
  · intro envKey
    simp [resolveApiKey, truthyStr]

/-- Witness for C5 at concrete inputs. -/
theorem credential_resolution_witness :
    ((generate_image "a cat" "out.png" "1K" none none none (fun _ => none) (fun _ => none)
        (.ok []) (fun s => s)).2 = .error .missingCredential) ∧
    resolveApiKey (some "sk-123") (some "env-key") = some "sk-123" := by
  have h := credential_resolution "a cat" "out.png" "1K" "veo-3.0-generate-001"
    none none (fun _ => none) (fun _ => none) (.ok []) (.ok .pending) [] (.ok [])
    (fun s => s)
  exact ⟨h.1.1, h.2.2.1 "sk-123" (some "env-key") (by decide)⟩

/-- Claim C6 counterexample: with the credential absent, an invocation
whose resolution is outside the enumerated set fails with
`MissingCredential`, not `InvalidOption` — the credential check runs
first — so the claim as stated (every such invocation fails with
`InvalidOption`) is false. -/
theorem invalid_resolution_counterexample :
    "8K" ∉ validResolutions ∧
    (generate_image "a cat" "out.png" "8K" none none none (fun _ => none) (fun _ => none)
        (.ok []) (fun s => s)).2 = .error .missingCredential ∧
    (generate_image "a cat" "out.png" "8K" none none none (fun _ => none) (fun _ => none)
        (.ok []) (fun s => s)).2 ≠ .error .invalidOption := by
  refine ⟨by decide, ?_, ?_⟩
  · simp [generate_image, resolveApiKey, truthyStr, pyTruthy]
  · simp [generate_image, resolveApiKey, truthyStr, pyTruthy]

/-- Claim C6 (amended): for every image-pipeline invocation in which the
credential resolves, a resolution value outside the enumerated set
fails with `InvalidOption` and the trace contains no network event. -/
theorem invalid_resolution_rejected
    (prompt output_path resolution : String)
    (input_image_path api_key env_key : Option String)
    (fs : String → Option (List Nat)) (mimeGuess : String → Option String)
    (service : Except String (List Part)) (resolve : String → String)
    (hcred : pyTruthy (resolveApiKey api_key env_key) = true)
    (hres : resolution ∉ validResolutions) :
    (generate_image prompt output_path resolution input_image_path api_key env_key
        fs mimeGuess service resolve).2 = .error .invalidOption ∧
    ∀ e ∈ (generate_image prompt output_path resolution input_image_path api_key env_key
        fs mimeGuess service resolve).1, isNetwork e = false := by
  constructor
  · simp [generate_image, hcred, hres]
  · intro e he
    simp [generate_image, hcred, hres] at he
    subst he; rfl

/-- Witness for the amended C6 at concrete inputs. -/
theorem invalid_resolution_rejected_witness :
    (generate_image "a cat" "out.png" "8K" none (some "sk-123") none (fun _ => none)
        (fun _ => none) (.ok []) (fun s => s)).2 = .error .invalidOption := by
  exact (invalid_resolution_rejected "a cat" "out.png" "8K" none (some "sk-123") none
    (fun _ => none) (fun _ => none) (.ok []) (fun s => s) (by decide) (by decide)).1

/-- Claim C9 counterexample: for an unrecognized extension the image
pipeline defaults the MIME type to `image/png` while the video pipeline
defaults to `image/jpeg` — the default is not the same type in every
such case. -/
theorem mime_default_counterexample :
    get_mime_type (fun _ => none) "ref.xyz" = "image/png" ∧
    video_mime_type (fun _ => none) "ref.xyz" = "image/jpeg" ∧
    get_mime_type (fun _ => none) "ref.xyz" ≠ video_mime_type (fun _ => none) "ref.xyz" := by
  refine ⟨rfl, rfl, by decide⟩

/-- Claim C9 (amended): each pipeline tags reference media whose
extension is unrecognized with a single fixed generic image MIME type,
but the defaults differ between pipelines: `image/png` in the image
pipeline, `image/jpeg` in the video pipeline. -/
theorem mime_default_per_pipeline (mimeGuess : String → Option String) (p : String)
    (h : mimeGuess p = none) :
    get_mime_type mimeGuess p = "image/png" ∧
    video_mime_type mimeGuess p = "image/jpeg" := by
  simp [get_mime_type, video_mime_type, h]

/-- Witness for the amended C9 at a concrete input. -/
theorem mime_default_per_pipeline_witness :
    get_mime_type (fun _ => none) "a.bin" = "image/png" ∧
    video_mime_type (fun _ => none) "a.bin" = "image/jpeg" :=
  mime_default_per_pipeline (fun _ => none) "a.bin" rfl

/-- Claim C10: an empty-string credential value is treated as absent —
an empty explicit argument falls back to the environment variable, and
an empty environment value with no (or an empty) explicit argument
produces `MissingCredential` in both pipelines. -/
theorem empty_credential_treated_absent
    (prompt output_path resolution model : String)
    (negative_prompt input_image_path : Option String)
    (fs : String → Option (List Nat)) (mimeGuess : String → Option String)
    (service : Except String (List Part))
    (submitResult : Except String PollStatus)
    (pollScript : List (Except String PollStatus))
    (downloadResult : Except String (List Nat))
    (resolve : String → String) :
    (∀ envKey : Option String, resolveApiKey (some "") envKey = envKey) ∧
    (generate_image prompt output_path resolution input_image_path none (some "")
        fs mimeGuess service resolve).2 = .error .missingCredential ∧
    (generate_image prompt output_path resolution input_image_path (some "") (some "")
        fs mimeGuess service resolve).2 = .error .missingCredential ∧
    (generate_video prompt output_path model negative_prompt input_image_path none (some "")
        fs mimeGuess submitResult pollScript downloadResult resolve).2 =
      .error .missingCredential ∧
    (generate_video prompt output_path model negative_prompt input_image_path
        (some "") (some "") fs mimeGuess submitResult pollScript downloadResult resolve).2 =
      .error .missingCredential := by
  refine ⟨fun envKey => by simp [resolveApiKey, truthyStr], ?_, ?_, ?_, ?_⟩ <;>
    simp [generate_image, generate_video, resolveApiKey, truthyStr, pyTruthy]

/-- Claim C1: once the credential and resolution checks pass, the
content sequence submitted by the image pipeline is exactly
`[prompt]` when no reference-media input is supplied, and exactly
`[reference media, prompt]` — the media part strictly first — when a
reference-media input is supplied. -/
theorem image_request_contents
    (prompt output_path resolution : String) (api_key env_key : Option String)
    (fs : String → Option (List Nat)) (mimeGuess : String → Option String)
    (service : Except String (List Part)) (resolve : String → String)
    (hcred : pyTruthy (resolveApiKey api_key env_key) = true)
    (hres : resolution ∈ validResolutions) :
    ((Event.generateContent [Content.text prompt] ∈
        (generate_image prompt output_path resolution none api_key env_key
          fs mimeGuess service resolve).1) ∧
      ∀ cs, Event.generateContent cs ∈
        (generate_image prompt output_path resolution none api_key env_key
          fs mimeGuess service resolve).1 → cs = [Content.text prompt]) ∧
    (∀ p data, p ≠ "" → fs p = some data →
      (Event.generateContent
          [Content.media data (get_mime_type mimeGuess p), Content.text prompt] ∈
        (generate_image prompt output_path resolution (some p) api_key env_key
          fs mimeGuess service resolve).1) ∧
      ∀ cs, Event.generateContent cs ∈
        (generate_image prompt output_path resolution (some p) api_key env_key
          fs mimeGuess service resolve).1 →
        cs = [Content.media data (get_mime_type mimeGuess p), Content.text prompt]) := by
  constructor
  · cases service with
    | error e =>
      constructor
      · simp [generate_image, hcred, hres, load_ref, truthyStr, buildContents]
      · intro cs hcs
        simp [generate_image, hcred, hres, load_ref, truthyStr, buildContents] at hcs
        exact hcs
    | ok parts =>
      constructor
      · simp [generate_image, hcred, hres, load_ref, truthyStr, buildContents]
      · intro cs hcs
        simp [generate_image, hcred, hres, load_ref, truthyStr, buildContents] at hcs
        rcases hcs with hcs | hcs
        · exact hcs
        · exact absurd hcs (extract_image_no_generateContent parts output_path resolve cs)
  · intro p data hp hfs
    cases service with
    | error e =>
      constructor
      · simp [generate_image, hcred, hres, load_ref, truthyStr, hp, hfs, buildContents]
      · intro cs hcs
        simp [generate_image, hcred, hres, load_ref, truthyStr, hp, hfs, buildContents] at hcs
        exact hcs
    | ok parts =>
      constructor
      · simp [generate_image, hcred, hres, load_ref, truthyStr, hp, hfs, buildContents]
      · intro cs hcs
        simp [generate_image, hcred, hres, load_ref, truthyStr, hp, hfs, buildContents] at hcs
        rcases hcs with hcs | hcs
        · exact hcs
        · exact absurd hcs (extract_image_no_generateContent parts output_path resolve cs)

/-- Witness for C1 at concrete inputs, covering both the no-reference
and the with-reference cases. -/
theorem image_request_contents_witness :
    (Event.generateContent [Content.text "a cat"] ∈
      (generate_image "a cat" "out.png" "1K" none (some "sk-123") none
        (fun _ => some [7, 8]) (fun _ => none) (.ok []) (fun s => s)).1) ∧
    (Event.generateContent [Content.media [7, 8] "image/png", Content.text "a cat"] ∈
      (generate_image "a cat" "out.png" "1K" (some "ref.xyz") (some "sk-123") none
        (fun _ => some [7, 8]) (fun _ => none) (.ok []) (fun s => s)).1) := by
  have h := image_request_contents "a cat" "out.png" "1K" (some "sk-123") none
    (fun _ => some [7, 8]) (fun _ => none) (.ok []) (fun s => s) (by decide) (by decide)
  exact ⟨h.1.1, (h.2 "ref.xyz" [7, 8] (by decide) rfl).1⟩

/-- Claim C2: the Response Extractor scans the parts in delivery order;
when some part carries inline binary data, the first such part's bytes
are written verbatim to the output path (and nothing else is ever
written); when no part does, the outcome is `NoMediaProduced`, every
truthy text part is surfaced as a stderr diagnostic in the trace
leading up to that outcome, and no write to the output path occurs. -/
theorem image_extraction_first_media (parts : List Part) (output_path : String)
    (resolve : String → String) :
    (∀ q d, parts.find? (fun x => x.inline_data.isSome) = some q →
      q.inline_data = some d →
      (extract_image parts output_path resolve).2 = .ok (resolve output_path) ∧
      Event.writeFile output_path d ∈ (extract_image parts output_path resolve).1 ∧
      ∀ path d2, Event.writeFile path d2 ∈ (extract_image parts output_path resolve).1 →
        path = output_path ∧ d2 = d) ∧
    (parts.find? (fun x => x.inline_data.isSome) = none →
      (extract_image parts output_path resolve).2 = .error .noMediaProduced ∧
      (∀ q ∈ parts, ∀ t, q.text = some t → t ≠ "" →
        Event.printErr ("Model response: " ++ t) ∈ (extract_image parts output_path resolve).1) ∧
      ∀ path d, Event.writeFile path d ∉ (extract_image parts output_path resolve).1) := by
  constructor
  · intro q d hfind hd
    have hm : firstMedia parts = some d := by
      rw [firstMedia_eq_find, hfind]; simpa using hd
    refine ⟨by simp [extract_image, hm], by simp [extract_image, hm], ?_⟩
    intro path d2 hmem
    simp [extract_image, hm] at hmem
    exact ⟨hmem.1, hmem.2⟩
  · intro hfind
    have hm : firstMedia parts = none := by
      rw [firstMedia_eq_find, hfind]; rfl
    refine ⟨by simp [extract_image, hm], ?_, ?_⟩
    · intro q hq t ht htne
      have hne : parts ≠ [] := by
        intro h0; rw [h0] at hq; simp at hq
      simp only [extract_image, hm, if_neg hne, List.mem_cons]
      exact Or.inr (surfaceTexts_mem hq ht htne)
    · intro path d hmem
      simp only [extract_image, hm, List.mem_cons] at hmem
      rcases hmem with hmem | hmem
      · exact Event.noConfusion hmem
      · by_cases hp : parts = []
        · simp [hp] at hmem
        · rw [if_neg hp] at hmem
          obtain ⟨s, hs⟩ := surfaceTexts_printErr hmem
          exact Event.noConfusion hs

/-- Witness for C2 at concrete inputs, covering both the media-found
and the no-media cases. -/
theorem image_extraction_first_media_witness :
    (extract_image [Part.mk none (some "working on it"), Part.mk (some [1, 2, 3]) none]
        "out.png" (fun s => s)).2 = .ok "out.png" ∧
    (extract_image [Part.mk none (some "cannot comply")] "out.png" (fun s => s)).2 =
      .error .noMediaProduced ∧
    Event.printErr "Model response: cannot comply" ∈
      (extract_image [Part.mk none (some "cannot comply")] "out.png" (fun s => s)).1 := by
  have h1 := (image_extraction_first_media
    [Part.mk none (some "working on it"), Part.mk (some [1, 2, 3]) none]
    "out.png" (fun s => s)).1 (Part.mk (some [1, 2, 3]) none) [1, 2, 3] (by decide) rfl
  have h2 := (image_extraction_first_media [Part.mk none (some "cannot comply")]
    "out.png" (fun s => s)).2 (by decide)
  exact ⟨h1.1, h2.1, h2.2.1 (Part.mk none (some "cannot comply")) (by decide)
    "cannot comply" rfl (by decide)⟩

/-- Claim C3: with the credential resolved and the scripted poll
responses [pending, pending, done-success], the waiter performs exactly
3 poll observations and exactly 2 delays, both of 20 seconds; the
waiting trace is exactly check-wait-sleep-query twice then a final
check (each re-query directly preceded by a 20-second sleep, no
backoff); the pipeline then proceeds to extraction (the download
happens and the run succeeds); and for any number of consecutive
pending responses the loop never gives up on its own (no maximum retry
count) while sleeping a constant 20 seconds between polls. -/
theorem waiter_pending_pending_success
    (prompt output_path model : String) (api_key env_key : Option String)
    (fs : String → Option (List Nat)) (mimeGuess : String → Option String)
    (data : List Nat) (resolve : String → String)
    (hcred : pyTruthy (resolveApiKey api_key env_key) = true) :
    statusChecks (generate_video prompt output_path model none none api_key env_key
        fs mimeGuess (.ok .pending) [.ok .pending, .ok .doneSuccess] (.ok data) resolve).1 = 3 ∧
    sleeps (generate_video prompt output_path model none none api_key env_key
        fs mimeGuess (.ok .pending) [.ok .pending, .ok .doneSuccess] (.ok data) resolve).1 =
      [20, 20] ∧
    Event.download ∈ (generate_video prompt output_path model none none api_key env_key
        fs mimeGuess (.ok .pending) [.ok .pending, .ok .doneSuccess] (.ok data) resolve).1 ∧
    (generate_video prompt output_path model none none api_key env_key
        fs mimeGuess (.ok .pending) [.ok .pending, .ok .doneSuccess] (.ok data) resolve).2 =
      .ok (resolve output_path) ∧
    waitLoop 0 .pending [.ok .pending, .ok .doneSuccess] =
      ([.statusCheck, .printOut (waitMsg 1), .sleep 20, .operationsGet,
        .statusCheck, .printOut (waitMsg 2), .sleep 20, .operationsGet, .statusCheck],
       .proceed) ∧
    ∀ n, (waitLoop 0 .pending (List.replicate n (.ok .pending))).2 = .outOfScript ∧
      sleeps (waitLoop 0 .pending (List.replicate n (.ok .pending))).1 =
        List.replicate (n + 1) 20 ∧
      statusChecks (waitLoop 0 .pending (List.replicate n (.ok .pending))).1 = n + 1 := by
  refine ⟨?_, ?_, ?_, ?_, ?_, ?_⟩
  · simp [generate_video, hcred, truthyStr, generate_video_submit, waitLoop,
      statusChecks, isStatusCheck, List.countP_append, List.countP_cons]
  · simp [generate_video, hcred, truthyStr, generate_video_submit, waitLoop,
      sleeps, List.filterMap_append, List.filterMap_cons]
  · simp [generate_video, hcred, truthyStr, generate_video_submit, waitLoop]
  · simp [generate_video, hcred, truthyStr, generate_video_submit, waitLoop]
  · rfl
  · intro n
    exact ⟨waitLoop_pend_outcome n 0, waitLoop_pend_sleeps n 0, waitLoop_pend_checks n 0⟩

/-- Witness for C3 at concrete inputs. -/
theorem waiter_pending_pending_success_witness :
    statusChecks (generate_video "a dog" "out.mp4" "veo-3.0-generate-001" none none
        (some "sk-123") none (fun _ => none) (fun _ => none) (.ok .pending)
        [.ok .pending, .ok .doneSuccess] (.ok [1, 2]) (fun s => s)).1 = 3 ∧
    (generate_video "a dog" "out.mp4" "veo-3.0-generate-001" none none
        (some "sk-123") none (fun _ => none) (fun _ => none) (.ok .pending)
        [.ok .pending, .ok .doneSuccess] (.ok [1, 2]) (fun s => s)).2 = .ok "out.mp4" := by
  have h := waiter_pending_pending_success "a dog" "out.mp4" "veo-3.0-generate-001"
    (some "sk-123") none (fun _ => none) (fun _ => none) [1, 2] (fun s => s) (by decide)
  exact ⟨h.1, h.2.2.2.1⟩

/-- Claim C4: with the credential resolved and the scripted poll
responses [pending, done-error], the waiter terminates after exactly 2
poll observations (one 20-second delay) with `GenerationFailed`
carrying the service's error detail, and extraction — the download and
the save of the video — never happens. -/
theorem waiter_pending_done_error
    (prompt output_path model : String) (api_key env_key : Option String)
    (fs : String → Option (List Nat)) (mimeGuess : String → Option String)
    (downloadResult : Except String (List Nat)) (resolve : String → String) (e : String)
    (hcred : pyTruthy (resolveApiKey api_key env_key) = true) :
    statusChecks (generate_video prompt output_path model none none api_key env_key
        fs mimeGuess (.ok .pending) [.ok (.doneError e)] downloadResult resolve).1 = 2 ∧
    sleeps (generate_video prompt output_path model none none api_key env_key
        fs mimeGuess (.ok .pending) [.ok (.doneError e)] downloadResult resolve).1 = [20] ∧
    (generate_video prompt output_path model none none api_key env_key
        fs mimeGuess (.ok .pending) [.ok (.doneError e)] downloadResult resolve).2 =
      .error (.generationFailed e) ∧
    Event.download ∉ (generate_video prompt output_path model none none api_key env_key
        fs mimeGuess (.ok .pending) [.ok (.doneError e)] downloadResult resolve).1 ∧
    ∀ p d, Event.writeFile p d ∉ (generate_video prompt output_path model none none
        api_key env_key fs mimeGuess (.ok .pending) [.ok (.doneError e)]
        downloadResult resolve).1 := by
  refine ⟨?_, ?_, ?_, ?_, ?_⟩
  · simp [generate_video, hcred, truthyStr, generate_video_submit, waitLoop,
      statusChecks, isStatusCheck, List.countP_append, List.countP_cons]
  · simp [generate_video, hcred, truthyStr, generate_video_submit, waitLoop,
      sleeps, List.filterMap_append, List.filterMap_cons]
  · simp [generate_video, hcred, truthyStr, generate_video_submit, waitLoop]
  · simp [generate_video, hcred, truthyStr, generate_video_submit, waitLoop]
  · intro p d
    simp [generate_video, hcred, truthyStr, generate_video_submit, waitLoop]

/-- Witness for C4 at concrete inputs. -/
theorem waiter_pending_done_error_witness :
    statusChecks (generate_video "a dog" "out.mp4" "veo-3.0-generate-001" none none
        (some "sk-123") none (fun _ => none) (fun _ => none) (.ok .pending)
        [.ok (.doneError "quota exceeded")] (.ok [1, 2]) (fun s => s)).1 = 2 ∧
    (generate_video "a dog" "out.mp4" "veo-3.0-generate-001" none none
        (some "sk-123") none (fun _ => none) (fun _ => none) (.ok .pending)
        [.ok (.doneError "quota exceeded")] (.ok [1, 2]) (fun s => s)).2 =
      .error (.generationFailed "quota exceeded") := by
  have h := waiter_pending_done_error "a dog" "out.mp4" "veo-3.0-generate-001"
    (some "sk-123") none (fun _ => none) (fun _ => none) (.ok [1, 2]) (fun s => s)
    "quota exceeded" (by decide)
  exact ⟨h.1, h.2.2.1⟩

/-- Claim C7: a transport error raised by the status-check query, after
any number of pending polls, is fatal — the outcome is `ServiceError`,
the loop stops at once (the `n+1`-th poll observation and the `n+1`-th
network query are the last), no download happens, and the whole run is
unaffected by whatever the script holds after the failure. -/
theorem poll_transport_error_fatal
    (prompt output_path model : String) (api_key env_key : Option String)
    (fs : String → Option (List Nat)) (mimeGuess : String → Option String)
    (downloadResult : Except String (List Nat)) (resolve : String → String)
    (n : Nat) (e : String) (rest : List (Except String PollStatus))
    (hcred : pyTruthy (resolveApiKey api_key env_key) = true) :
    (generate_video prompt output_path model none none api_key env_key fs mimeGuess
        (.ok .pending) (List.replicate n (.ok .pending) ++ .error e :: rest)
        downloadResult resolve).2 = .error (.serviceError e) ∧
    statusChecks (generate_video prompt output_path model none none api_key env_key fs mimeGuess
        (.ok .pending) (List.replicate n (.ok .pending) ++ .error e :: rest)
        downloadResult resolve).1 = n + 1 ∧
    operationsGets (generate_video prompt output_path model none none api_key env_key fs mimeGuess
        (.ok .pending) (List.replicate n (.ok .pending) ++ .error e :: rest)
        downloadResult resolve).1 = n + 1 ∧
    Event.download ∉ (generate_video prompt output_path model none none api_key env_key fs
        mimeGuess (.ok .pending) (List.replicate n (.ok .pending) ++ .error e :: rest)
        downloadResult resolve).1 ∧
    generate_video prompt output_path model none none api_key env_key fs mimeGuess
        (.ok .pending) (List.replicate n (.ok .pending) ++ .error e :: rest)
        downloadResult resolve =
      generate_video prompt output_path model none none api_key env_key fs mimeGuess
        (.ok .pending) (List.replicate n (.ok .pending) ++ [.error e])
        downloadResult resolve := by
  have hout := waitLoop_err_outcome n e rest 0
  have hch := waitLoop_err_checks n e rest 0
  have hg := waitLoop_err_gets n e rest 0
  simp only [statusChecks] at hch
  simp only [operationsGets] at hg
  refine ⟨?_, ?_, ?_, ?_, ?_⟩
  · simp [generate_video, hcred, truthyStr, generate_video_submit, hout]
  · simp [generate_video, hcred, truthyStr, generate_video_submit, hout,
      statusChecks, List.countP_append, List.countP_cons, isStatusCheck, hch]
  · simp [generate_video, hcred, truthyStr, generate_video_submit, hout,
      operationsGets, List.countP_append, List.countP_cons, isPollQuery, hg]
  · simp [generate_video, hcred, truthyStr, generate_video_submit, hout,
      waitLoop_no_download]
  · have heq := waitLoop_err_eq n e rest 0
    simp [generate_video, hcred, truthyStr, generate_video_submit, heq]

/-- Witness for C7 at concrete inputs (one pending poll, then a
transport failure; a later done-success in the script is ignored). -/
theorem poll_transport_error_fatal_witness :
    (generate_video "a dog" "out.mp4" "veo-3.0-generate-001" none none
        (some "sk-123") none (fun _ => none) (fun _ => none) (.ok .pending)
        (List.replicate 1 (.ok .pending) ++ .error "connection reset" :: [.ok .doneSuccess])
        (.ok [1, 2]) (fun s => s)).2 = .error (.serviceError "connection reset") ∧
    statusChecks (generate_video "a dog" "out.mp4" "veo-3.0-generate-001" none none
        (some "sk-123") none (fun _ => none) (fun _ => none) (.ok .pending)
        (List.replicate 1 (.ok .pending) ++ .error "connection reset" :: [.ok .doneSuccess])
        (.ok [1, 2]) (fun s => s)).1 = 2 := by
  have h := poll_transport_error_fatal "a dog" "out.mp4" "veo-3.0-generate-001"
    (some "sk-123") none (fun _ => none) (fun _ => none) (.ok [1, 2]) (fun s => s)
    1 "connection reset" [.ok .doneSuccess] (by decide)
  exact ⟨h.1, h.2.1⟩

/-- Claim C8: in every successful run of either pipeline, the reported
outcome is the resolved absolute output path, and the trace creates the
output parent directories (`mkdir -p`) strictly before the artifact
bytes are written to the output path. -/
theorem output_path_handling :
    (∀ (prompt output_path resolution : String)
       (input_image_path api_key env_key : Option String)
       (fs : String → Option (List Nat)) (mimeGuess : String → Option String)
       (service : Except String (List Part)) (resolve : String → String) (p : String),
      (generate_image prompt output_path resolution input_image_path api_key env_key
        fs mimeGuess service resolve).2 = .ok p →
      p = resolve output_path ∧
      mkdirBeforeWrite (generate_image prompt output_path resolution input_image_path
        api_key env_key fs mimeGuess service resolve).1 output_path) ∧
    (∀ (prompt output_path model : String)
       (negative_prompt input_image_path api_key env_key : Option String)
       (fs : String → Option (List Nat)) (mimeGuess : String → Option String)
       (submitResult : Except String PollStatus)
       (pollScript : List (Except String PollStatus))
       (downloadResult : Except String (List Nat))
       (resolve : String → String) (p : String),
      (generate_video prompt output_path model negative_prompt input_image_path
        api_key env_key fs mimeGuess submitResult pollScript downloadResult resolve).2 =
          .ok p →
      p = resolve output_path ∧
      mkdirBeforeWrite (generate_video prompt output_path model negative_prompt
        input_image_path api_key env_key fs mimeGuess submitResult pollScript
        downloadResult resolve).1 output_path) := by
  constructor
  · intro prompt output_path resolution input_image_path api_key env_key fs mimeGuess
      service resolve p h
    cases hc : pyTruthy (resolveApiKey api_key env_key) with
    | false => simp [generate_image, hc] at h
    | true =>
      by_cases hr : resolution ∈ validResolutions
      · rcases hl : load_ref fs mimeGuess input_image_path with el | ref
        · simp [generate_image, hc, hr, hl] at h
        · rcases service with e | parts
          · simp [generate_image, hc, hr, hl] at h
          · rcases hm : firstMedia parts with _ | d
            · simp [generate_image, hc, hr, hl, extract_image, hm] at h
            · have hval : (generate_image prompt output_path resolution input_image_path
                  api_key env_key fs mimeGuess (.ok parts) resolve).2 =
                    .ok (resolve output_path) := by
                simp [generate_image, hc, hr, hl, extract_image, hm]
              have htr : (generate_image prompt output_path resolution input_image_path
                  api_key env_key fs mimeGuess (.ok parts) resolve).1 =
                  [Event.generateContent (buildContents prompt ref)] ++
                    Event.mkdirParents output_path ::
                      [Event.writeFile output_path d,
                       Event.printOut ("Image saved: " ++ resolve output_path)] := by
                simp [generate_image, hc, hr, hl, extract_image, hm]
              rw [hval] at h
              refine ⟨by injection h.symm, ?_⟩
              rw [htr]
              exact mkdirBeforeWrite_of_append _ _ _ d (by simp)
      · simp [generate_image, hc, hr] at h
  · intro prompt output_path model negative_prompt input_image_path api_key env_key
      fs mimeGuess submitResult pollScript downloadResult resolve p h
    cases hc : pyTruthy (resolveApiKey api_key env_key) with
    | false => simp [generate_video, hc] at h
    | true =>
      rcases hi : truthyStr input_image_path with _ | pth
      · have h2 : (generate_video prompt output_path model negative_prompt input_image_path
            api_key env_key fs mimeGuess submitResult pollScript downloadResult resolve).2 =
            (generate_video_submit prompt output_path model (truthyStr negative_prompt) none
              submitResult pollScript downloadResult resolve).2 := by
          simp [generate_video, hc, hi]
        have h1 : (generate_video prompt output_path model negative_prompt input_image_path
            api_key env_key fs mimeGuess submitResult pollScript downloadResult resolve).1 =
            (generate_video_submit prompt output_path model (truthyStr negative_prompt) none
              submitResult pollScript downloadResult resolve).1 := by
          simp [generate_video, hc, hi]
        rw [h2] at h
        obtain ⟨ha, hb⟩ := generate_video_submit_ok _ _ _ _ _ _ _ _ _ _ h
        rw [h1]
        exact ⟨ha, hb⟩
      · rcases hfs : fs pth with _ | bytes
        · simp [generate_video, hc, hi, hfs] at h
        · have h2 : (generate_video prompt output_path model negative_prompt input_image_path
              api_key env_key fs mimeGuess submitResult pollScript downloadResult resolve).2 =
              (generate_video_submit prompt output_path model (truthyStr negative_prompt)
                (some (bytes, video_mime_type mimeGuess pth))
                submitResult pollScript downloadResult resolve).2 := by
            simp [generate_video, hc, hi, hfs]
          have h1 : (generate_video prompt output_path model negative_prompt input_image_path
              api_key env_key fs mimeGuess submitResult pollScript downloadResult resolve).1 =
              Event.printOut ("Loading input image: " ++ pth) ::
                (generate_video_submit prompt output_path model (truthyStr negative_prompt)
                  (some (bytes, video_mime_type mimeGuess pth))
                  submitResult pollScript downloadResult resolve).1 := by
            simp [generate_video, hc, hi, hfs]
          rw [h2] at h
          obtain ⟨ha, hb⟩ := generate_video_submit_ok _ _ _ _ _ _ _ _ _ _ h
          rw [h1]
          exact ⟨ha, mkdirBeforeWrite_cons _ hb⟩

/-- Witness for C8: a concrete successful run of each pipeline. -/
theorem output_path_handling_witness :
    ("/abs/out.png" = (fun s => "/abs/" ++ s) "out.png" ∧
      mkdirBeforeWrite (generate_image "a cat" "out.png" "1K" none (some "sk-123") none
        (fun _ => none) (fun _ => none) (.ok [Part.mk (some [1, 2]) none])
        (fun s => "/abs/" ++ s)).1 "out.png") ∧
    ("/abs/out.mp4" = (fun s => "/abs/" ++ s) "out.mp4" ∧
      mkdirBeforeWrite (generate_video "a dog" "out.mp4" "veo-3.0-generate-001" none none
        (some "sk-123") none (fun _ => none) (fun _ => none) (.ok .doneSuccess) []
        (.ok [1, 2]) (fun s => "/abs/" ++ s)).1 "out.mp4") := by
  constructor
  · exact output_path_handling.1 "a cat" "out.png" "1K" none (some "sk-123") none
      (fun _ => none) (fun _ => none) (.ok [Part.mk (some [1, 2]) none])
      (fun s => "/abs/" ++ s) "/abs/out.png" (by rfl)
  · exact output_path_handling.2 "a dog" "out.mp4" "veo-3.0-generate-001" none none
      (some "sk-123") none (fun _ => none) (fun _ => none) (.ok .doneSuccess) []
      (.ok [1, 2]) (fun s => "/abs/" ++ s) "/abs/out.mp4" (by rfl)

end MediaGen
